import Mathlib

/-!
Verification development for the JAHAT-SERVICES live-session client.

The definitions below are a shallow embedding of the real-time audio
capture/playback pipeline implemented in `src/components/LiveSession.tsx`.
Time values (the output-clock reading `AudioContext.currentTime`, the
timeline cursor `nextStartTimeRef`, and chunk durations) are modelled as
rationals.  The mutable React refs of the component become fields of an
explicit `SessionState` record, and each event handler of the source
becomes a pure state-transforming function.  Operations that can throw in
the browser are modelled with `Except`; the one `try/catch` of the source
is modelled explicitly.

Two helper modules of the repository (`src/utils/audioUtils.ts` and
`src/constants.ts`) are imported by `LiveSession.tsx` but are not present
under `src/`; the definitions taken from them are modelled from the spec
and marked as such in their doc comments.
-/

/-- Modelled from the spec: constant `AUDIO_OUTPUT_SAMPLE_RATE` of
`src/constants.ts` (absent from src/).  Spec section 4.2 gives the declared
output rate as 24 kHz. -/
def AUDIO_OUTPUT_SAMPLE_RATE : ℕ := 24000

/-- Modelled from the spec: constant `AUDIO_INPUT_SAMPLE_RATE` of
`src/constants.ts` (absent from src/).  Spec section 4.1 gives the fixed
input rate as 16 kHz. -/
def AUDIO_INPUT_SAMPLE_RATE : ℕ := 16000

/-- Connection status of the session, from the
`type ConnectionStatus = ...` union in `LiveSession.tsx` line 20. -/
inductive ConnectionStatus where
  | disconnected
  | connecting
  | connected
  | error
deriving DecidableEq

/-- Embedding of one `AudioBufferSourceNode` as managed by the component:
its scheduled start time, the duration of the buffer attached to it, and
two flags recording whether `start()` and `stop()` have been called on it.
In `LiveSession.tsx` every node held in `sourcesRef` had `start()` called
before it was added (line 205 precedes line 207). -/
structure AudioSource where
  startTime : ℚ
  duration : ℚ
  started : Bool
  stopped : Bool
deriving DecidableEq

/-- Embedding of the mutable state of the `LiveSession` component: the
React state variables `status`, `errorMsg`, `volumeLevel` and the refs
holding the audio pipeline resources.  Presence of a resource behind a
nullable ref is a `Bool` (or an `Option`), matching the null checks of the
source; `streamTracks` counts the tracks of the captured `MediaStream`;
`volumeLevelSq` stores the square of the published volume level (see
`volumeLevelSqOf`). -/
structure SessionState where
  status : ConnectionStatus
  errorMsg : Option String
  volumeLevelSq : ℚ
  inputCtx : Bool
  outputCtx : Bool
  streamTracks : Option ℕ
  processor : Bool
  gainNode : Bool
  videoInterval : Bool
  sessionRef : Bool
  nextStartTime : ℚ
  sources : List AudioSource
deriving DecidableEq

/-- Embedding of a `LiveServerMessage` as read by the `onmessage` callback:
the optional inbound audio payload (`message.serverContent?.modelTurn?.
parts?.[0]?.inlineData?.data`, modelled after base64 decoding as a byte
list) and the interruption flag (`message.serverContent?.interrupted`). -/
structure ServerMessage where
  audioData : Option (List ℤ)
  interrupted : Bool

/-- Error raised by the sample decoder on a malformed payload. -/
structure DecodeError where
  msg : String
deriving DecidableEq

/-- Decoded audio chunk: the PCM samples normalised to the range plus the
derived sample count and duration in seconds (sample count over the
declared rate). -/
structure DecodedChunk where
  samples : List ℚ
  sampleCount : ℕ
  duration : ℚ

/-- Interpretation of two consecutive bytes as a little-endian signed
16-bit sample value. -/
def int16OfBytes (lo hi : ℤ) : ℤ :=
  let u := (lo % 256) + 256 * (hi % 256)
  if u < 32768 then u else u - 65536

/-- Conversion of a little-endian 16-bit byte stream into samples
normalised to the range from -1 to 1. -/
def pcmSamples : List ℤ → List ℚ
  | lo :: hi :: rest => ((int16OfBytes lo hi : ℚ) / 32768) :: pcmSamples rest
  | _ => []

/-- Modelled from the spec: `decodeAudioData` of `src/utils/audioUtils.ts`
(absent from src/).  Spec section 4.2: the decoder turns a binary payload
of fixed-point samples at a declared rate into a DecodedChunk whose
duration is derived from the sample count and the rate, and fails with a
DecodeError when the payload length is not a whole multiple of the sample
width (two bytes for 16-bit samples). -/
def decodeAudioData (bytes : List ℤ) (rate : ℕ) : Except DecodeError DecodedChunk :=
  if bytes.length % 2 = 0 then
    Except.ok { samples := pcmSamples bytes,
                sampleCount := bytes.length / 2,
                duration := ((bytes.length / 2 : ℕ) : ℚ) / (rate : ℚ) }
  else
    Except.error { msg := "payload length is not a multiple of the sample width" }

/-- Embedding of `AudioBufferSourceNode.stop()`: per the Web Audio
specification the call succeeds whenever `start()` was called before
(also after playback already finished naturally) and throws an
InvalidStateError otherwise. -/
def AudioSource.stopNode (src : AudioSource) : Except String AudioSource :=
  if src.started then Except.ok { src with stopped := true }
  else Except.error "InvalidStateError"

/-- Embedding of `sourcesRef.current.forEach(s => s.stop())`
(`LiveSession.tsx` line 215): stops every node in the live set, with no
catch around the individual calls. -/
def stopAllNodes (srcs : List AudioSource) : Except String (List AudioSource) :=
  srcs.mapM AudioSource.stopNode

/-- Embedding of the audio block of the `onmessage` callback of
`LiveSession.tsx` (lines 185-211), run with the output clock reading
`clock`.  When a payload is present and the output context and gain node
are live, the block first bumps the cursor to `max cursor clock`
(line 190), then decodes; on success it creates a started source node
scheduled at the bumped cursor, appends it to the live set and advances
the cursor by the chunk duration (lines 196-207); a decode failure is
caught and only logged (lines 208-210). -/
def audioPhase (clock : ℚ) (a : Option (List ℤ)) (s : SessionState) : SessionState :=
  match a with
  | some bytes =>
      if s.outputCtx && s.gainNode then
        let t := max s.nextStartTime clock
        match decodeAudioData bytes AUDIO_OUTPUT_SAMPLE_RATE with
        | Except.ok chunk =>
            { s with nextStartTime := t + chunk.duration,
                     sources := s.sources ++
                       [{ startTime := t, duration := chunk.duration,
                          started := true, stopped := false }] }
        | Except.error _ => { s with nextStartTime := t }
      else s
  | none => s

/-- Embedding of the interruption block of the same callback
(lines 213-218), run on the state left by the audio block: every node of
the live set is stopped with no catch, then the set is cleared and the
cursor zeroed; a throwing stop would propagate and skip the clear. -/
def interruptPhase (s1 : SessionState) : Except String SessionState :=
  match stopAllNodes s1.sources with
  | Except.ok _ => Except.ok { s1 with sources := [], nextStartTime := 0 }
  | Except.error e => Except.error e

/-- Composition of the two blocks as the callback runs them: the audio
block first, then the interruption block when the flag is set. -/
def onmessage (clock : ℚ) (msg : ServerMessage) (s : SessionState) :
    Except String SessionState :=
  let s1 := audioPhase clock msg.audioData s
  if msg.interrupted then interruptPhase s1
  else Except.ok s1

/-- Embedding of the object released by the `onended` callback installed at
`LiveSession.tsx` lines 201-203: natural completion of a node removes it
from the live set (deletion of an absent member is a no-op, as for the
JavaScript `Set`). -/
def onended (src : AudioSource) (s : SessionState) : SessionState :=
  { s with sources := s.sources.filter (fun x => x ≠ src) }

/-- Resource-release calls performed by `stopSession`; each constructor
records one call into the browser, in the order the source makes them.
The `stopPlayback` action carries the node as it is after the guarded
`source.stop()` call. -/
inductive CleanupAction where
  | clearVideoInterval
  | disconnectProcessor
  | closeInputCtx
  | stopTrack (i : ℕ)
  | stopPlayback (result : AudioSource)
  | closeOutputCtx
deriving DecidableEq

/-- Embedding of the `try { source.stop() } catch (e) { /* ignore */ }`
pattern of `LiveSession.tsx` lines 66-68: a throwing stop leaves the node
as it was and the error is swallowed. -/
def stopNodeCaught (src : AudioSource) : AudioSource :=
  match src.stopNode with
  | Except.ok r => r
  | Except.error _ => src

/-- Embedding of the `stopSession` cleanup callback (`LiveSession.tsx`
lines 49-81).  Every release is guarded by a null check on its ref; the
stops of in-flight playback nodes are wrapped in a catch; afterwards every
ref is cleared, the live set is emptied, the status becomes disconnected
and the published volume level is zeroed.  The timeline cursor
`nextStartTimeRef` is not touched.  The returned list records the release
calls made into the browser. -/
def stopSession (s : SessionState) : SessionState × List CleanupAction :=
  let a1 : List CleanupAction :=
    if s.videoInterval then [CleanupAction.clearVideoInterval] else []
  let a2 : List CleanupAction :=
    if s.processor then [CleanupAction.disconnectProcessor] else []
  let a3 : List CleanupAction :=
    if s.inputCtx then [CleanupAction.closeInputCtx] else []
  let a4 : List CleanupAction :=
    match s.streamTracks with
    | some n => (List.range n).map CleanupAction.stopTrack
    | none => []
  let a5 : List CleanupAction :=
    s.sources.map (fun src => CleanupAction.stopPlayback (stopNodeCaught src))
  let a6 : List CleanupAction :=
    if s.outputCtx then [CleanupAction.closeOutputCtx] else []
  ({ s with videoInterval := false,
            processor := false,
            inputCtx := false,
            streamTracks := none,
            sources := [],
            outputCtx := false,
            gainNode := false,
            sessionRef := false,
            status := ConnectionStatus.disconnected,
            volumeLevelSq := 0 },
   a1 ++ a2 ++ a3 ++ a4 ++ a5 ++ a6)

/-- Embedding of the synchronous resource-acquisition prefix of
`startSession` (`LiveSession.tsx` lines 83-134) on its happy path: tear
down first for a clean slate (line 85), clear the error message and enter
the connecting state (lines 86-87), acquire both audio contexts, the gain
node and the media stream (lines 99-127), and set the timeline cursor to
zero (line 134). -/
def startSessionInit (s : SessionState) : SessionState :=
  let s0 := (stopSession s).1
  { s0 with errorMsg := none,
            status := ConnectionStatus.connecting,
            inputCtx := true,
            outputCtx := true,
            gainNode := true,
            streamTracks := some 2,
            nextStartTime := 0 }

/-- Embedding of the `onclose` callback (`LiveSession.tsx` lines 220-223):
a channel-closed notification performs a full teardown. -/
def oncloseHandler (s : SessionState) : SessionState :=
  (stopSession s).1

/-- Embedding of the `onerror` callback (`LiveSession.tsx` lines 224-230):
a fatal channel error notification stores a human-readable message and
then calls `stopSession` (which sets the status to disconnected). -/
def onerrorHandler (s : SessionState) : SessionState :=
  (stopSession { s with errorMsg := some "Connection error. Please try again." }).1

/-- Embedding of the `sessionPromise.catch` handler (`LiveSession.tsx`
lines 234-239): on a channel-open failure with message `m` the component
stores the message, sets the status to error, and then calls
`stopSession`, whose own write sets the status to disconnected. -/
def connectFailureHandler (m : String) (s : SessionState) : SessionState :=
  (stopSession { s with errorMsg := some m, status := ConnectionStatus.error }).1

/-- Mean of the squared samples of a capture window, from the volume-meter
loop at `LiveSession.tsx` lines 163-165 (`sum += x * x` over the window,
divided by the window length). -/
def meanSquare (w : List ℚ) : ℚ :=
  (w.map (fun x => x * x)).sum / (w.length : ℚ)

/-- Square of the volume level published at `LiveSession.tsx` line 166.
The source publishes `min (rms * 5) 1` with `rms = sqrt (meanSquare w)`;
since squaring is monotone on nonnegative values, the square of that
reading is `min (25 * meanSquare w) 1`, which is an exact rational and is
what this embedding stores in `SessionState.volumeLevelSq`. -/
def volumeLevelSqOf (w : List ℚ) : ℚ :=
  min (25 * meanSquare w) 1

/-- Wire-ready encoded audio frame: a declared format tag embedding the
input rate, plus the binary payload. -/
structure EncodedFrame where
  mimeTypeAndRate : String
  payload : List ℤ
deriving DecidableEq

/-- Saturation of a sample to the unit range followed by scaling to a
16-bit fixed-point value. -/
def sat16 (x : ℚ) : ℤ :=
  Int.floor (max (-1) (min 1 x) * 32767)

/-- Little-endian byte pair of a 16-bit value. -/
def int16LE (v : ℤ) : List ℤ :=
  [(v % 65536) % 256, (v % 65536) / 256]

/-- Modelled from the spec: `createPcmBlob` of `src/utils/audioUtils.ts`
(absent from src/).  Spec section 4.1: samples are converted to
fixed-point 16-bit little-endian with saturation at the unit range and
tagged with a format string embedding the input rate; the function is
pure and stateless. -/
def createPcmBlob (w : List ℚ) : EncodedFrame :=
  { mimeTypeAndRate := "audio/pcm;rate=16000",
    payload := (w.map sat16).flatMap int16LE }

/-- Embedding of the `scriptProcessor.onaudioprocess` handler
(`LiveSession.tsx` lines 157-176) on one capture window.  The handler is a
closure created inside `onopen`; the mute flag it consults is the value of
`isMuted` captured by that closure when the session was opened, passed
here as `capturedMuted` — the handler takes no input from later renders.
When the captured flag is set the handler returns at once (line 158):
no volume reading is published and no frame is encoded or sent.
Otherwise it publishes the volume reading and hands the encoded frame to
the outbound channel (the fire-and-forget send of lines 170-175 is the
returned frame). -/
def onaudioprocess (capturedMuted : Bool) (window : List ℚ) (s : SessionState) :
    SessionState × Option EncodedFrame :=
  if capturedMuted then (s, none)
  else ({ s with volumeLevelSq := volumeLevelSqOf window },
        some (createPcmBlob window))

/-- Embedding of the guard of the video interval callback installed by
`startVideoStream` (`LiveSession.tsx` lines 253-260): a frame is captured
and sent only when the video-enabled flag captured by the interval closure
at session open is set and the video element is ready.  As with the audio
handler, the flag consulted is the captured one, not the value of
`isVideoEnabled` in later renders. -/
def videoTickSends (capturedVideoEnabled : Bool) (videoReady : Bool) : Bool :=
  capturedVideoEnabled && videoReady

/-- Atomic mutations of the timeline cursor performed by the `onmessage`
callback, one constructor per mutation site: the bump to the clock at
line 190, the advance past the scheduled chunk at line 206, and the reset
of line 217.  The `await decodeAudioData` at line 194 is the only
suspension point of the callback, so mutations by other callback runs can
interleave exactly between the bump of a run and its later start/advance
pair, never inside them. -/
inductive TimelineEv where
  | bumpToClock (t : ℚ)
  | advance (d : ℚ)
  | reset
deriving DecidableEq

/-- Effect of one timeline event on the cursor. -/
def timelineStep (c : ℚ) : TimelineEv → ℚ
  | TimelineEv.bumpToClock t => max c t
  | TimelineEv.advance d => c + d
  | TimelineEv.reset => 0

/-- Cursor value after a sequence of timeline events. -/
def timelineRun (evs : List TimelineEv) (c : ℚ) : ℚ :=
  evs.foldl timelineStep c

/-- Duration in seconds of the chunk decoded from `bytes`, as computed by
the decoder at the declared output rate. -/
def chunkDur (bytes : List ℤ) : ℚ :=
  ((bytes.length / 2 : ℕ) : ℚ) / (AUDIO_OUTPUT_SAMPLE_RATE : ℚ)

/-- Run of `onmessage` on a pure audio message (no interruption flag);
this run never throws, so the state is extracted from the `Except`. -/
def onAudio (clock : ℚ) (bytes : List ℤ) (s : SessionState) : SessionState :=
  ((onmessage clock { audioData := some bytes, interrupted := false } s).toOption).getD s

/-- Concrete freshly-connected session state: both contexts, the gain
node, the stream and the processor are live, the cursor is zero and the
live set is empty. -/
def stConn : SessionState :=
  { status := ConnectionStatus.connected,
    errorMsg := none,
    volumeLevelSq := 0,
    inputCtx := true,
    outputCtx := true,
    streamTracks := some 2,
    processor := true,
    gainNode := true,
    videoInterval := true,
    sessionRef := true,
    nextStartTime := 0,
    sources := [] }

/-- Concrete mid-playback session state: the session is connected, the
cursor sits at seven seconds and one started node is in flight. -/
def stPlaying : SessionState :=
  { stConn with nextStartTime := 7,
                sources := [{ startTime := 2, duration := 5,
                              started := true, stopped := false }] }

/-- Audio-only runs of `onmessage` never throw: the handler returns
exactly the state computed by `onAudio`. -/
theorem onmessage_audio_ok (clock : ℚ) (bytes : List ℤ) (s : SessionState) :
    onmessage clock { audioData := some bytes, interrupted := false } s =
      Except.ok (onAudio clock bytes s) := rfl

/-- Effect of scheduling one decodable chunk on a session whose output
context and gain node are live: the cursor is bumped to the maximum of
cursor and clock, one started node scheduled at that bump is appended to
the live set, and the cursor advances past it. -/
theorem onAudio_eq (clock : ℚ) (bytes : List ℤ) (s : SessionState)
    (hctx : s.outputCtx = true) (hgain : s.gainNode = true)
    (hlen : bytes.length % 2 = 0) :
    onAudio clock bytes s =
      { s with nextStartTime := max s.nextStartTime clock + chunkDur bytes,
               sources := s.sources ++
                 [{ startTime := max s.nextStartTime clock,
                    duration := chunkDur bytes,
                    started := true, stopped := false }] } := by
  simp [onAudio, onmessage, audioPhase, decodeAudioData, hctx, hgain, hlen,
    chunkDur, Except.toOption, Option.getD]

/-- Claim C1: every accepted chunk is scheduled at
`max (timeline cursor) (output clock)`, its handle joins the live set, and
the cursor advances to start plus duration; consecutive chunks without an
intervening interruption never overlap (second start is at least first
start plus first duration); and three back-to-back chunks of durations
one half, three tenths and one fifth of a second are scheduled at `t1`,
`t1 + 1/2` and `t1 + 4/5`, where `t1` is the output-clock reading at the
first chunk. -/
theorem C1_gapless_ordered_scheduling
    (s s0 : SessionState) (clock c2 t1 t2 t3 : ℚ)
    (bytes d2 b1 b2 b3 : List ℤ)
    (hctx : s.outputCtx = true) (hgain : s.gainNode = true)
    (hlen : bytes.length % 2 = 0) (hlen2 : d2.length % 2 = 0)
    (h0ctx : s0.outputCtx = true) (h0gain : s0.gainNode = true)
    (h0cur : s0.nextStartTime = 0)
    (hl1 : b1.length = 24000) (hl2 : b2.length = 14400) (hl3 : b3.length = 9600)
    (ht1 : 0 ≤ t1) (ht2 : t2 ≤ t1 + 1 / 2) (ht3 : t3 ≤ t1 + 4 / 5) :
    (onmessage clock { audioData := some bytes, interrupted := false } s =
        Except.ok (onAudio clock bytes s)
      ∧ onAudio clock bytes s =
        { s with nextStartTime := max s.nextStartTime clock + chunkDur bytes,
                 sources := s.sources ++
                   [{ startTime := max s.nextStartTime clock,
                      duration := chunkDur bytes,
                      started := true, stopped := false }] })
    ∧ (∃ h1 h2 : AudioSource,
        (onAudio c2 d2 (onAudio clock bytes s)).sources = s.sources ++ [h1, h2]
          ∧ h1.startTime + h1.duration ≤ h2.startTime)
    ∧ (∃ g1 g2 g3 : AudioSource,
        (onAudio t3 b3 (onAudio t2 b2 (onAudio t1 b1 s0))).sources
            = s0.sources ++ [g1, g2, g3]
          ∧ g1.startTime = t1 ∧ g2.startTime = t1 + 1 / 2
          ∧ g3.startTime = t1 + 4 / 5) := by
  have e1 := onAudio_eq clock bytes s hctx hgain hlen
  refine ⟨⟨onmessage_audio_ok clock bytes s, e1⟩, ?_, ?_⟩
  · have e2 := onAudio_eq c2 d2 (onAudio clock bytes s)
      (by rw [e1]; exact hctx) (by rw [e1]; exact hgain) hlen2
    refine ⟨{ startTime := max s.nextStartTime clock, duration := chunkDur bytes,
              started := true, stopped := false },
            { startTime := max (max s.nextStartTime clock + chunkDur bytes) c2,
              duration := chunkDur d2, started := true, stopped := false }, ?_, ?_⟩
    · rw [e2, e1]
      simp
    · exact le_sup_left
  · have d1 : chunkDur b1 = 1 / 2 := by
      rw [chunkDur, hl1, AUDIO_OUTPUT_SAMPLE_RATE]; norm_num
    have d2' : chunkDur b2 = 3 / 10 := by
      rw [chunkDur, hl2, AUDIO_OUTPUT_SAMPLE_RATE]; norm_num
    have d3 : chunkDur b3 = 1 / 5 := by
      rw [chunkDur, hl3, AUDIO_OUTPUT_SAMPLE_RATE]; norm_num
    have F1 : onAudio t1 b1 s0 =
        { s0 with nextStartTime := t1 + 1 / 2,
                  sources := s0.sources ++
                    [{ startTime := t1, duration := 1 / 2,
                       started := true, stopped := false }] } := by
      rw [onAudio_eq t1 b1 s0 h0ctx h0gain (by rw [hl1]), h0cur, d1,
        max_eq_right ht1]
    have F2 : onAudio t2 b2 (onAudio t1 b1 s0) =
        { s0 with nextStartTime := t1 + 4 / 5,
                  sources := s0.sources ++
                    [{ startTime := t1, duration := 1 / 2,
                       started := true, stopped := false },
                     { startTime := t1 + 1 / 2, duration := 3 / 10,
                       started := true, stopped := false }] } := by
      rw [F1, onAudio_eq t2 b2 _ (by simp [h0ctx]) (by simp [h0gain])
        (by rw [hl2]), d2']
      simp
      refine ⟨?_, by linarith⟩
      rw [show (t1 + 2⁻¹ : ℚ) ⊔ t2 = t1 + 2⁻¹ from sup_eq_left.mpr (by linarith)]
      linarith
    have F3 : onAudio t3 b3 (onAudio t2 b2 (onAudio t1 b1 s0)) =
        { s0 with nextStartTime := t1 + 1,
                  sources := s0.sources ++
                    [{ startTime := t1, duration := 1 / 2,
                       started := true, stopped := false },
                     { startTime := t1 + 1 / 2, duration := 3 / 10,
                       started := true, stopped := false },
                     { startTime := t1 + 4 / 5, duration := 1 / 5,
                       started := true, stopped := false }] } := by
      rw [F2, onAudio_eq t3 b3 _ (by simp [h0ctx]) (by simp [h0gain])
        (by rw [hl3]), d3]
      simp
      refine ⟨?_, by linarith⟩
      rw [show (t1 + 4 / 5 : ℚ) ⊔ t3 = t1 + 4 / 5 from sup_eq_left.mpr (by linarith)]
      linarith
    exact ⟨{ startTime := t1, duration := 1 / 2, started := true, stopped := false },
           { startTime := t1 + 1 / 2, duration := 3 / 10, started := true, stopped := false },
           { startTime := t1 + 4 / 5, duration := 1 / 5, started := true, stopped := false },
           by rw [F3], rfl, rfl, rfl⟩


/-- Witness for C1: a concrete run of the three-chunk scenario from a
freshly connected state, with clocks 1, 6/5 and 17/10. -/
theorem C1_gapless_ordered_scheduling_witness :
    stConn.outputCtx = true ∧ stConn.nextStartTime = 0
    ∧ (List.replicate 24000 (0 : ℤ)).length = 24000
    ∧ (0 : ℚ) ≤ 1 ∧ (6 / 5 : ℚ) ≤ 1 + 1 / 2 ∧ (17 / 10 : ℚ) ≤ 1 + 4 / 5
    ∧ (∃ g1 g2 g3 : AudioSource,
        (onAudio (17 / 10) (List.replicate 9600 0)
          (onAudio (6 / 5) (List.replicate 14400 0)
            (onAudio 1 (List.replicate 24000 0) stConn))).sources
            = stConn.sources ++ [g1, g2, g3]
          ∧ g1.startTime = 1 ∧ g2.startTime = 1 + 1 / 2
          ∧ g3.startTime = 1 + 4 / 5) := by
  refine ⟨rfl, rfl, by rw [List.length_replicate], by norm_num, by norm_num,
    by norm_num, ?_⟩
  exact (C1_gapless_ordered_scheduling stConn stConn 1 2 1 (6 / 5) (17 / 10)
    (List.replicate 2 0) (List.replicate 4 0)
    (List.replicate 24000 0) (List.replicate 14400 0) (List.replicate 9600 0)
    rfl rfl (by simp) (by simp) rfl rfl rfl
    (by rw [List.length_replicate]) (by rw [List.length_replicate])
    (by rw [List.length_replicate])
    (by norm_num) (by norm_num) (by norm_num)).2.2

/-- Counterexample to claim C2: on a muted tick the handler returns at
line 158 before the volume-meter loop, so a full-scale window (whose
meter reading is 1) is processed with no volume publication at all — the
state is returned untouched and nothing is sent. -/
theorem C2_muted_tick_skips_meter :
    onaudioprocess true [1] stConn = (stConn, none)
    ∧ volumeLevelSqOf [1] = 1
    ∧ stConn.volumeLevelSq = 0 := by
  refine ⟨rfl, ?_, rfl⟩
  simp [volumeLevelSqOf, meanSquare]

/-- Claim C2 as amended: the mute flag read by the capture handler gates
the whole tick, not just the encode-and-send step.  When the flag is set
the handler does nothing: no volume reading is published and no frame is
emitted; when it is clear the volume reading is published and the encoded
window is handed to the outbound channel. -/
theorem C2_mute_gates_meter_and_send (w : List ℚ) (s : SessionState) :
    onaudioprocess true w s = (s, none)
    ∧ (onaudioprocess false w s).1.volumeLevelSq = volumeLevelSqOf w
    ∧ (onaudioprocess false w s).2 = some (createPcmBlob w) :=
  ⟨rfl, rfl, rfl⟩

/-- Claim C3, evaluated at the failing input: the capture handler is a
closure installed at session open; the only mute information it can read
is the `capturedMuted` value baked in at installation (`false` for a
session opened unmuted).  The universally quantified `uiMutedNow` stands
for the current value of the `isMuted` React state after the user toggles
mute: it does not occur in the handler, so for every current value —
including `true` — the next tick still encodes and sends the window, and
likewise the video interval callback still sends frames for every current
value of the video-enabled flag.  The claim says a mute change takes
effect on the next tick; the code keeps sending. -/
theorem C3_stale_flag_tick_still_sends :
    (∀ uiMutedNow : Bool,
      (onaudioprocess false [1] stConn).2 = some (createPcmBlob [1]))
    ∧ (∀ uiVideoNow : Bool, videoTickSends true true = true) :=
  ⟨fun _ => rfl, fun _ => rfl⟩

/-- Effect of a malformed chunk on a live session: the cursor is bumped
to the maximum of cursor and clock at line 190 before decoding is
attempted, the decode failure is caught, and nothing else changes. -/
theorem onAudio_fail_eq (clock : ℚ) (bytes : List ℤ) (s : SessionState)
    (hctx : s.outputCtx = true) (hgain : s.gainNode = true)
    (hlen : bytes.length % 2 = 1) :
    onAudio clock bytes s = { s with nextStartTime := max s.nextStartTime clock } := by
  simp [onAudio, onmessage, audioPhase, decodeAudioData, hctx, hgain, hlen,
    Except.toOption, Option.getD]

/-- Counterexample to claim C4: a malformed payload (one byte) arriving
when the output clock reads 5 moves the cursor from 0 to 5 even though
the chunk is dropped — the failed message does not leave the cursor
unchanged. -/
theorem C4_failed_decode_moves_cursor :
    (onAudio 5 [0] stConn).sources = []
    ∧ (onAudio 5 [0] stConn).nextStartTime = 5
    ∧ stConn.nextStartTime = 0
    ∧ (5 : ℚ) ≠ 0 := by decide

/-- Claim C4 as amended: a malformed payload raises a DecodeError that
the handler catches, the chunk is dropped with no playback handle
created, and the only state change is the cursor bump to
`max cursor clock` performed before decoding; since the output clock is
non-decreasing, a subsequent valid chunk is then scheduled in exactly the
state it would have reached had the corrupt message never arrived, so a
single corrupt chunk never desynchronises later valid chunks. -/
theorem C4_decode_error_local_recovery (s : SessionState) (clock clock2 : ℚ)
    (bad good : List ℤ)
    (hctx : s.outputCtx = true) (hgain : s.gainNode = true)
    (hbad : bad.length % 2 = 1) (hgood : good.length % 2 = 0)
    (hmono : clock ≤ clock2) :
    onmessage clock { audioData := some bad, interrupted := false } s =
        Except.ok (onAudio clock bad s)
    ∧ onAudio clock bad s = { s with nextStartTime := max s.nextStartTime clock }
    ∧ onAudio clock2 good (onAudio clock bad s) = onAudio clock2 good s := by
  have ef := onAudio_fail_eq clock bad s hctx hgain hbad
  refine ⟨onmessage_audio_ok clock bad s, ef, ?_⟩
  rw [ef]
  rw [onAudio_eq clock2 good _ (by simp [hctx]) (by simp [hgain]) hgood,
    onAudio_eq clock2 good s hctx hgain hgood]
  have hmx : max (max s.nextStartTime clock) clock2 = max s.nextStartTime clock2 := by
    rw [max_assoc, max_eq_right hmono]
  simp [hmx]

/-- Witness for the amended C4: a corrupt one-byte message at clock 3
followed by a valid chunk at clock 4 leaves the valid chunk scheduled
exactly as if the corrupt message had never arrived. -/
theorem C4_decode_error_local_recovery_witness :
    stConn.outputCtx = true ∧ ([(0 : ℤ)].length % 2 = 1) ∧ (3 : ℚ) ≤ 4
    ∧ onAudio 4 [0, 0] (onAudio 3 [0] stConn) = onAudio 4 [0, 0] stConn := by
  refine ⟨rfl, by simp, by norm_num, ?_⟩
  exact (C4_decode_error_local_recovery stConn 3 4 [0] [0, 0]
    rfl rfl (by simp) (by simp) (by norm_num)).2.2

/-- Claim C5, evaluated on the model: both channel-failure paths end with
the session disconnected, not in the error state.  The `sessionPromise`
catch handler (channel-open failure) writes the error status and then
calls `stopSession`, whose own status write lands last, so the component
ends disconnected with the message retained but the error state never
persists; the `onerror` handler (fatal channel error) never writes the
error status at all and likewise ends disconnected after a full
teardown. -/
theorem C5_channel_failure_ends_disconnected (m : String) (s : SessionState) :
    (connectFailureHandler m s).status = ConnectionStatus.disconnected
    ∧ (connectFailureHandler m s).errorMsg = some m
    ∧ (connectFailureHandler m s).sources = []
    ∧ (connectFailureHandler m s).inputCtx = false
    ∧ (connectFailureHandler m s).outputCtx = false
    ∧ (onerrorHandler s).status = ConnectionStatus.disconnected
    ∧ (onerrorHandler s).errorMsg = some "Connection error. Please try again." :=
  ⟨rfl, rfl, rfl, rfl, rfl, rfl, rfl⟩

/-- Claim C6: teardown is total and idempotent.  From any state — fully,
partially or not at all initialised — one call clears every owned
reference (video interval, processor, input context, stream tracks, live
playback set, output context, gain node, channel reference) and lands in
the disconnected state with the published volume zeroed; a second call
returns the very same state and performs no further release call into the
browser.  No step can raise: every release is guarded by a null check and
the only fallible operation, stopping a playback node, is wrapped in the
catch modelled by `stopNodeCaught`. -/
theorem C6_teardown_idempotent_total (s : SessionState) :
    (stopSession s).1.videoInterval = false
    ∧ (stopSession s).1.processor = false
    ∧ (stopSession s).1.inputCtx = false
    ∧ (stopSession s).1.streamTracks = none
    ∧ (stopSession s).1.sources = []
    ∧ (stopSession s).1.outputCtx = false
    ∧ (stopSession s).1.gainNode = false
    ∧ (stopSession s).1.sessionRef = false
    ∧ (stopSession s).1.status = ConnectionStatus.disconnected
    ∧ (stopSession s).1.volumeLevelSq = 0
    ∧ stopSession (stopSession s).1 = ((stopSession s).1, []) :=
  ⟨rfl, rfl, rfl, rfl, rfl, rfl, rfl, rfl, rfl, rfl, rfl⟩

/-- Stopping every node of a live set whose members were all started (as
every member added by the scheduler is) succeeds without raising and
marks each node stopped. -/
theorem stopAllNodes_ok : ∀ (l : List AudioSource),
    (∀ src ∈ l, src.started = true) →
    stopAllNodes l =
      Except.ok (l.map (fun src => { src with stopped := true })) := by
  intro l
  induction l with
  | nil => intro _; rfl
  | cons a t ih =>
    intro h
    have ha : a.started = true := h a (List.mem_cons_self a t)
    have ht : ∀ src ∈ t, src.started = true :=
      fun src hs => h src (List.mem_cons_of_mem a hs)
    have ih' := ih ht
    simp only [stopAllNodes] at ih' ⊢
    rw [List.mapM_cons, AudioSource.stopNode, if_pos ha, ih']
    rfl

/-- Claim C7: an interruption signal stops every node of the live set
(each stop succeeds — no raise — because every member of the set was
started when scheduled), clears the set, resets the cursor to zero, and
the next chunk scheduled afterwards starts exactly at the output-clock
reading rather than at the pre-interruption cursor. -/
theorem C7_interruption_clears_and_resets (s : SessionState) (clock clock2 : ℚ)
    (bytes : List ℤ)
    (hstarted : ∀ src ∈ s.sources, src.started = true)
    (hctx : s.outputCtx = true) (hgain : s.gainNode = true)
    (hlen : bytes.length % 2 = 0) (hclock2 : 0 ≤ clock2) :
    stopAllNodes s.sources =
      Except.ok (s.sources.map (fun src => { src with stopped := true }))
    ∧ onmessage clock { audioData := none, interrupted := true } s =
        Except.ok { s with sources := [], nextStartTime := 0 }
    ∧ (∃ h : AudioSource,
        (onAudio clock2 bytes { s with sources := [], nextStartTime := 0 }).sources
            = [h]
          ∧ h.startTime = clock2) := by
  have hs := stopAllNodes_ok s.sources hstarted
  refine ⟨hs, ?_, ?_⟩
  · show interruptPhase (audioPhase clock none s) = _
    show interruptPhase s = _
    unfold interruptPhase
    rw [hs]
  · rw [onAudio_eq clock2 bytes _ (by simp [hctx]) (by simp [hgain]) hlen]
    refine ⟨{ startTime := clock2, duration := chunkDur bytes,
              started := true, stopped := false }, ?_, rfl⟩
    simp [max_eq_right hclock2]

/-- Witness for C7: interrupting the concrete mid-playback state empties
the live set and zeroes the cursor, and a chunk arriving at clock 3
afterwards is scheduled at 3. -/
theorem C7_interruption_clears_and_resets_witness :
    (∀ src ∈ stPlaying.sources, src.started = true)
    ∧ (0 : ℚ) ≤ 3
    ∧ onmessage 1 { audioData := none, interrupted := true } stPlaying =
        Except.ok { stPlaying with sources := [], nextStartTime := 0 }
    ∧ (∃ h : AudioSource,
        (onAudio 3 [0, 0] { stPlaying with sources := [], nextStartTime := 0 }).sources
            = [h]
          ∧ h.startTime = 3) := by
  refine ⟨by decide, by norm_num, ?_⟩
  have := C7_interruption_clears_and_resets stPlaying 1 3 [0, 0]
    (by decide) rfl rfl (by decide) (by norm_num)
  exact ⟨this.2.1, this.2.2⟩

/-- Counterexample to claim C8: teardown performs no reset-to-zero — from
the mid-playback state with cursor 7, `stopSession` leaves the cursor at
7 — while `startSession` (line 134), which is neither an interruption nor
a teardown, is the operation that resets the cursor to 0, decreasing
it. -/
theorem C8_teardown_does_not_reset_cursor :
    (stopSession stPlaying).1.nextStartTime = 7
    ∧ (startSessionInit stPlaying).nextStartTime = 0
    ∧ stPlaying.nextStartTime = 7
    ∧ (7 : ℚ) ≠ 0 := by
  refine ⟨rfl, rfl, rfl, by norm_num⟩

/-- Every run of the message handler without the interruption flag leaves
the cursor no smaller than before: the only mutations are the bump to
`max cursor clock` and the advance by a nonnegative chunk duration. -/
theorem onmessage_cursor_nondecreasing (clock : ℚ) (a : Option (List ℤ))
    (s : SessionState) :
    ∃ s1, onmessage clock { audioData := a, interrupted := false } s = Except.ok s1
      ∧ s.nextStartTime ≤ s1.nextStartTime := by
  cases a with
  | none => exact ⟨s, rfl, le_refl _⟩
  | some bytes =>
    refine ⟨onAudio clock bytes s, onmessage_audio_ok clock bytes s, ?_⟩
    cases hg : (s.outputCtx && s.gainNode) with
    | false =>
        have : onAudio clock bytes s = s := by
          simp [onAudio, onmessage, audioPhase, hg, Except.toOption, Option.getD]
        rw [this]
    | true =>
        rw [Bool.and_eq_true] at hg
        obtain ⟨hc, hgn⟩ := hg
        rcases Nat.mod_two_eq_zero_or_one bytes.length with hp | hp
        · rw [onAudio_eq clock bytes s hc hgn hp]
          have hd : (0 : ℚ) ≤ chunkDur bytes := by
            unfold chunkDur
            positivity
          refine le_trans (le_max_left s.nextStartTime clock) ?_
          show max s.nextStartTime clock ≤ max s.nextStartTime clock + chunkDur bytes
          linarith
        · rw [onAudio_fail_eq clock bytes s hc hgn hp]
          exact le_max_left _ _

/-- Result of the message handler when the interruption flag is set, when
it returns at all: the cursor is zero and the live set empty. -/
theorem onmessage_interrupt_result (clock : ℚ) (msg : ServerMessage)
    (s s2 : SessionState) (hi : msg.interrupted = true)
    (h2 : onmessage clock msg s = Except.ok s2) :
    s2.nextStartTime = 0 ∧ s2.sources = [] := by
  unfold onmessage at h2
  rw [hi] at h2
  simp only [if_true] at h2
  unfold interruptPhase at h2
  revert h2
  cases stopAllNodes (audioPhase clock msg.audioData s).sources with
  | ok l =>
      intro h2
      simp only [Except.ok.injEq] at h2
      rw [← h2]
      exact ⟨rfl, rfl⟩
  | error e =>
      intro h2
      exact absurd h2 (by simp)

/-- Claim C8 as amended: the timeline cursor is non-decreasing under
every operation of the system except the reset-to-zero performed by the
interruption branch of the message handler and by the start of a new
session; teardown (`stopSession`) and the handlers built on it leave the
cursor unchanged rather than resetting it. -/
theorem C8_cursor_monotonicity (s : SessionState) (clock : ℚ)
    (a : Option (List ℤ)) (m : String) (w : List ℚ) (src : AudioSource) :
    (∃ s1, onmessage clock { audioData := a, interrupted := false } s = Except.ok s1
        ∧ s.nextStartTime ≤ s1.nextStartTime)
    ∧ (∀ s2, onmessage clock { audioData := a, interrupted := true } s = Except.ok s2 →
        s2.nextStartTime = 0)
    ∧ (stopSession s).1.nextStartTime = s.nextStartTime
    ∧ (startSessionInit s).nextStartTime = 0
    ∧ (onerrorHandler s).nextStartTime = s.nextStartTime
    ∧ (oncloseHandler s).nextStartTime = s.nextStartTime
    ∧ (connectFailureHandler m s).nextStartTime = s.nextStartTime
    ∧ (onaudioprocess true w s).1.nextStartTime = s.nextStartTime
    ∧ (onaudioprocess false w s).1.nextStartTime = s.nextStartTime
    ∧ (onended src s).nextStartTime = s.nextStartTime := by
  refine ⟨onmessage_cursor_nondecreasing clock a s, ?_, rfl, rfl, rfl, rfl, rfl,
    rfl, rfl, rfl⟩
  intro s2 h2
  exact (onmessage_interrupt_result clock _ s s2 rfl h2).1

/-- Witness for the amended C8: concrete checks of the cursor behaviour
at the mid-playback state for a non-interrupting message, an interrupting
message, and teardown. -/
theorem C8_cursor_monotonicity_witness :
    (∃ s1, onmessage 9 { audioData := some [0, 0], interrupted := false } stPlaying
        = Except.ok s1 ∧ stPlaying.nextStartTime ≤ s1.nextStartTime)
    ∧ (∀ s2, onmessage 9 { audioData := some [0, 0], interrupted := true } stPlaying
        = Except.ok s2 → s2.nextStartTime = 0)
    ∧ (stopSession stPlaying).1.nextStartTime = stPlaying.nextStartTime := by
  have := C8_cursor_monotonicity stPlaying 9 (some [0, 0]) "m" [1]
    { startTime := 0, duration := 0, started := true, stopped := false }
  exact ⟨this.1, this.2.1, this.2.2.1⟩

/-- Cursor events containing a reset forget the cursor value from before
the sequence: the result is the same for every starting cursor. -/
theorem timelineRun_reset_forgets : ∀ (evs : List TimelineEv),
    TimelineEv.reset ∈ evs → ∀ c1 c2 : ℚ, timelineRun evs c1 = timelineRun evs c2 := by
  intro evs
  induction evs with
  | nil => intro h; cases h
  | cons e t ih =>
    intro h c1 c2
    cases e with
    | reset => rfl
    | bumpToClock u =>
        refine ih ?_ _ _
        rcases List.mem_cons.mp h with h1 | h1
        · exact absurd h1 (by simp)
        · exact h1
    | advance d =>
        refine ih ?_ _ _
        rcases List.mem_cons.mp h with h1 | h1
        · exact absurd h1 (by simp)
        · exact h1

/-- Claim C9: the scheduling of a chunk whose processing overlaps a reset
never uses the pre-reset cursor.  The chunk performs its bump (line 190)
on the cursor `c1` it sees on arrival; the events `evs` that interleave
during its `await decodeAudioData` suspension include the reset; the
value it then passes to `source.start` (line 205) is the cursor after
`evs`.  That value is identical for any two pre-reset cursors `c1`, `c2`
and equals the value computed on the timeline restarted from zero — the
chunk always starts from the reset timeline, never from the one that
existed before the reset. -/
theorem C9_reset_atomic (evs : List TimelineEv) (c1 c2 t : ℚ)
    (hreset : TimelineEv.reset ∈ evs) :
    timelineRun evs (timelineStep c1 (TimelineEv.bumpToClock t)) =
      timelineRun evs (timelineStep c2 (TimelineEv.bumpToClock t))
    ∧ timelineRun evs (timelineStep c1 (TimelineEv.bumpToClock t)) =
      timelineRun evs 0 :=
  ⟨timelineRun_reset_forgets evs hreset _ _,
   timelineRun_reset_forgets evs hreset _ _⟩

/-- Witness for C9: with the interleaved events reset-then-advance, a
chunk that bumped the cursor at 10 and one that bumped it at 0 are
started from the same post-reset cursor. -/
theorem C9_reset_atomic_witness :
    TimelineEv.reset ∈ [TimelineEv.reset, TimelineEv.advance 1]
    ∧ timelineRun [TimelineEv.reset, TimelineEv.advance 1]
        (timelineStep 10 (TimelineEv.bumpToClock 3)) =
      timelineRun [TimelineEv.reset, TimelineEv.advance 1]
        (timelineStep 0 (TimelineEv.bumpToClock 3)) := by
  refine ⟨by simp, ?_⟩
  exact (C9_reset_atomic [TimelineEv.reset, TimelineEv.advance 1] 10 0 3 (by simp)).1

/-- Claim C10: a message carrying both an audio payload and the
interruption flag schedules the chunk first and interrupts afterwards, so
the handler ends with an empty live set and a zero cursor; the node
created for the carried audio is in the live set when the interruption
block runs, so it too is stopped (the stop of every set member, the new
node included, succeeds and marks it stopped). -/
theorem C10_interrupting_message_final_state (s : SessionState) (clock : ℚ)
    (bytes : List ℤ)
    (hstarted : ∀ src ∈ s.sources, src.started = true)
    (hctx : s.outputCtx = true) (hgain : s.gainNode = true)
    (hlen : bytes.length % 2 = 0) :
    onmessage clock { audioData := some bytes, interrupted := true } s =
      Except.ok { s with sources := [], nextStartTime := 0 }
    ∧ stopAllNodes (onAudio clock bytes s).sources =
        Except.ok ((onAudio clock bytes s).sources.map
          (fun src => { src with stopped := true })) := by
  have e1 := onAudio_eq clock bytes s hctx hgain hlen
  have hall : ∀ src ∈ (onAudio clock bytes s).sources, src.started = true := by
    rw [e1]
    intro src h
    rcases List.mem_append.mp h with h1 | h1
    · exact hstarted src h1
    · rw [List.mem_singleton] at h1
      rw [h1]
  have hstop := stopAllNodes_ok _ hall
  refine ⟨?_, hstop⟩
  show interruptPhase (audioPhase clock (some bytes) s) = _
  have hap : audioPhase clock (some bytes) s = onAudio clock bytes s := rfl
  unfold interruptPhase
  rw [hap, hstop, e1]

/-- Witness for C10: a message carrying a decodable chunk and the
interruption flag, arriving at the concrete mid-playback state, leaves
the live set empty and the cursor at zero. -/
theorem C10_interrupting_message_final_state_witness :
    (∀ src ∈ stPlaying.sources, src.started = true)
    ∧ onmessage 1 { audioData := some [0, 0], interrupted := true } stPlaying =
        Except.ok { stPlaying with sources := [], nextStartTime := 0 } := by
  refine ⟨by decide, ?_⟩
  exact (C10_interrupting_message_final_state stPlaying 1 [0, 0]
    (by decide) rfl rfl (by decide)).1
